import Mathlib

/-!
# A2DP control-plane bridge (`btif/src/btif_a2dp_control.cc`)

Shallow embedding of the control/data channel callbacks of the A2DP control
unit.  The unit keeps one global, `a2dp_cmd_pending`; everything else it does
is a call into a collaborator (UIPC transport, AV state machine, media task).
A handler is embedded as a function `State → State`, where the state carries
the global together with the trace of collaborator calls made so far, oldest
first.  The answers of the collaborators that a handler queries are passed in
as an `Env` record; along every path of every handler each query is made at
most once, so one record per handler call loses nothing.
-/

namespace BtifA2dpControl

/-! ## Types and constants declared outside the unit -/

/-- UIPC channel identifiers the unit names. -/
inductive tUIPC_CH_ID where
  | UIPC_CH_ID_AV_CTRL
  | UIPC_CH_ID_AV_AUDIO
  | UIPC_CH_ID_ALL
  deriving DecidableEq, Repr

/-- Modelled from the spec: the channel events of section 3 (`OPENED`,
`CLOSED`, `DATA_READY`); the declaration of `tUIPC_EVENT` in `uipc.h` is not
among the sources.  `other code` stands for any event value the callbacks have
no case for and send to their `default:` label. -/
inductive tUIPC_EVENT where
  | UIPC_OPEN_EVT
  | UIPC_CLOSE_EVT
  | UIPC_RX_DATA_READY_EVT
  | other (code : Nat)
  deriving DecidableEq, Repr

/-- The two receive callbacks the unit registers with `UIPC_Open`. -/
inductive tUIPC_RCV_CBACK where
  | ctrl_cb
  | data_cb
  deriving DecidableEq, Repr

/-- The AV state-machine events the unit posts with `btif_dispatch_sm_event`. -/
inductive btif_av_sm_event_t where
  | BTIF_AV_START_STREAM_REQ_EVT
  | BTIF_AV_STOP_STREAM_REQ_EVT
  | BTIF_AV_SUSPEND_STREAM_REQ_EVT
  | BTIF_AV_OFFLOAD_START_REQ_EVT
  deriving DecidableEq, Repr

/-- The two `UIPC_Ioctl` requests the unit issues, with their argument. -/
inductive tUIPC_IOCTL where
  | UIPC_REG_REMOVE_ACTIVE_READSET
  | UIPC_SET_READ_POLL_TMO (ms : Nat)
  deriving DecidableEq, Repr

/-- Header constants the unit uses whose values are declared in headers that
are not among the sources (`audio_a2dp_hw.h`, `avdt_api.h`,
`btif_a2dp_source.h`).  They are parameters of the embedding. -/
structure Hdr where
  A2DP_CTRL_ACK_SUCCESS : Nat
  A2DP_CTRL_ACK_FAILURE : Nat
  A2DP_CTRL_ACK_INCALL_FAILURE : Nat
  AVDT_TSEP_SRC : Nat
  AVDT_TSEP_SNK : Nat
  BTIF_A2DP_SOURCE_MEDIA_TIMER_MS : Nat
  deriving DecidableEq, Repr

/-- Modelled from the spec: wire value of `CMD_NONE` in the command table of
section 6; the enum `tA2DP_CTRL_CMD` of `audio_a2dp_hw.h` is not among the
sources. -/
def A2DP_CTRL_CMD_NONE : Nat := 0
/-- Modelled from the spec: wire value of `CMD_CHECK_READY` (section 6). -/
def A2DP_CTRL_CMD_CHECK_READY : Nat := 1
/-- Modelled from the spec: wire value of `CMD_START` (section 6). -/
def A2DP_CTRL_CMD_START : Nat := 2
/-- Modelled from the spec: wire value of `CMD_STOP` (section 6). -/
def A2DP_CTRL_CMD_STOP : Nat := 3
/-- Modelled from the spec: wire value of `CMD_SUSPEND` (section 6). -/
def A2DP_CTRL_CMD_SUSPEND : Nat := 4
/-- Modelled from the spec: wire value of `CMD_GET_AUDIO_CONFIG` (section 6). -/
def A2DP_CTRL_GET_AUDIO_CONFIG : Nat := 5
/-- Modelled from the spec: wire value of `CMD_OFFLOAD_START` (section 6). -/
def A2DP_CTRL_CMD_OFFLOAD_START : Nat := 6

/-- `A2DP_DATA_READ_POLL_MS`: half the media timer period, in C integer
division. -/
def A2DP_DATA_READ_POLL_MS (K : Hdr) : Nat :=
  K.BTIF_A2DP_SOURCE_MEDIA_TIMER_MS / 2

/-! ## Collaborator calls and answers -/

/-- One call into a collaborator that changes something outside the unit. -/
inductive Effect where
  | UIPC_Init
  | UIPC_Open (ch : tUIPC_CH_ID) (cb : tUIPC_RCV_CBACK)
  | UIPC_Close (ch : tUIPC_CH_ID)
  | UIPC_Send (ch : tUIPC_CH_ID) (bytes : List Nat)
  | UIPC_Ioctl (ch : tUIPC_CH_ID) (request : tUIPC_IOCTL)
  | btif_dispatch_sm_event (event : btif_av_sm_event_t)
  | btif_av_clear_remote_suspend_flag
  | btif_a2dp_source_start_aa_req
  | btif_a2dp_source_encoder_update
  deriving DecidableEq, Repr

/-- Answers of the collaborators queried during one handler call. -/
structure Env where
  btif_a2dp_source_media_task_is_shutting_down : Bool
  btif_a2dp_source_media_task_is_running : Bool
  btif_av_stream_ready : Bool
  btif_av_stream_started_ready : Bool
  btif_hf_is_call_idle : Bool
  btif_a2dp_source_is_streaming : Bool
  btif_av_get_peer_sep : Nat
  btif_a2dp_sink_get_sample_rate : Nat
  btif_a2dp_sink_get_channel_count : Nat
  deriving DecidableEq, Repr

/-- The unit's global `a2dp_cmd_pending` and the collaborator calls made so
far, oldest first. -/
structure State where
  a2dp_cmd_pending : Nat
  trace : List Effect
  deriving DecidableEq, Repr

/-- Static initialiser: `a2dp_cmd_pending = A2DP_CTRL_CMD_NONE`, nothing
called yet. -/
def State.init : State :=
  { a2dp_cmd_pending := A2DP_CTRL_CMD_NONE, trace := [] }

/-- Perform one collaborator call. -/
def call (e : Effect) (s : State) : State :=
  { s with trace := s.trace ++ [e] }

/-- Object representation of a `uint32_t` as the four bytes `UIPC_Send` is
handed through `reinterpret_cast<uint8_t *>`, lowest address first, on a
little-endian target. -/
def uint32_bytes (v : Nat) : List Nat :=
  [v % 256, v / 256 % 256, v / 65536 % 256, v / 16777216 % 256]

/-! ## The unit's functions -/

open tUIPC_CH_ID tUIPC_EVENT tUIPC_RCV_CBACK btif_av_sm_event_t tUIPC_IOCTL

/-- `btif_a2dp_command_ack(status)`. -/
def btif_a2dp_command_ack (status : Nat) (s : State) : State :=
  let ack := status % 256
  if s.a2dp_cmd_pending = A2DP_CTRL_CMD_NONE then
    s
  else
    call (Effect.UIPC_Send UIPC_CH_ID_AV_CTRL [ack])
      { s with a2dp_cmd_pending := A2DP_CTRL_CMD_NONE }

/-- `btif_a2dp_control_init()`. -/
def btif_a2dp_control_init (s : State) : State :=
  call (Effect.UIPC_Open UIPC_CH_ID_AV_CTRL ctrl_cb) (call Effect.UIPC_Init s)

/-- `btif_a2dp_control_cleanup()`. -/
def btif_a2dp_control_cleanup (s : State) : State :=
  call (Effect.UIPC_Close UIPC_CH_ID_ALL) s

/-- `btif_a2dp_recv_ctrl_data()`.  `n` and `read_cmd` are what
`UIPC_Read(UIPC_CH_ID_AV_CTRL, NULL, &read_cmd, 1)` returned and stored. -/
def btif_a2dp_recv_ctrl_data (K : Hdr) (env : Env) (n : Int) (read_cmd : Nat)
    (s : State) : State :=
  let cmd := read_cmd
  if n = 0 then
    call (Effect.UIPC_Close UIPC_CH_ID_AV_CTRL) s
  else
    let s := { s with a2dp_cmd_pending := cmd }
    if cmd = A2DP_CTRL_CMD_CHECK_READY then
      if env.btif_a2dp_source_media_task_is_shutting_down then
        btif_a2dp_command_ack K.A2DP_CTRL_ACK_FAILURE s
      else if env.btif_av_stream_ready || env.btif_av_stream_started_ready then
        btif_a2dp_command_ack K.A2DP_CTRL_ACK_SUCCESS s
      else
        btif_a2dp_command_ack K.A2DP_CTRL_ACK_FAILURE s
    else if cmd = A2DP_CTRL_CMD_START then
      if !env.btif_hf_is_call_idle then
        btif_a2dp_command_ack K.A2DP_CTRL_ACK_INCALL_FAILURE s
      else if env.btif_a2dp_source_is_streaming then
        btif_a2dp_command_ack K.A2DP_CTRL_ACK_FAILURE s
      else if env.btif_av_stream_ready then
        let s := call (Effect.UIPC_Open UIPC_CH_ID_AV_AUDIO data_cb) s
        let s := call (Effect.btif_dispatch_sm_event BTIF_AV_START_STREAM_REQ_EVT) s
        if env.btif_av_get_peer_sep = K.AVDT_TSEP_SRC then
          btif_a2dp_command_ack K.A2DP_CTRL_ACK_SUCCESS s
        else
          s
      else if env.btif_av_stream_started_ready then
        let s := call (Effect.UIPC_Open UIPC_CH_ID_AV_AUDIO data_cb) s
        btif_a2dp_command_ack K.A2DP_CTRL_ACK_SUCCESS s
      else
        btif_a2dp_command_ack K.A2DP_CTRL_ACK_FAILURE s
    else if cmd = A2DP_CTRL_CMD_STOP then
      if env.btif_av_get_peer_sep = K.AVDT_TSEP_SNK
          ∧ env.btif_a2dp_source_is_streaming = false then
        btif_a2dp_command_ack K.A2DP_CTRL_ACK_SUCCESS s
      else
        let s := call (Effect.btif_dispatch_sm_event BTIF_AV_STOP_STREAM_REQ_EVT) s
        btif_a2dp_command_ack K.A2DP_CTRL_ACK_SUCCESS s
    else if cmd = A2DP_CTRL_CMD_SUSPEND then
      if env.btif_av_stream_started_ready then
        call (Effect.btif_dispatch_sm_event BTIF_AV_SUSPEND_STREAM_REQ_EVT) s
      else
        let s := call Effect.btif_av_clear_remote_suspend_flag s
        btif_a2dp_command_ack K.A2DP_CTRL_ACK_SUCCESS s
    else if cmd = A2DP_CTRL_GET_AUDIO_CONFIG then
      let sample_rate := env.btif_a2dp_sink_get_sample_rate % 4294967296
      let channel_count := env.btif_a2dp_sink_get_channel_count % 256
      let s := btif_a2dp_command_ack K.A2DP_CTRL_ACK_SUCCESS s
      let s := call (Effect.UIPC_Send UIPC_CH_ID_AV_CTRL (uint32_bytes sample_rate)) s
      call (Effect.UIPC_Send UIPC_CH_ID_AV_CTRL [channel_count]) s
    else if cmd = A2DP_CTRL_CMD_OFFLOAD_START then
      call (Effect.btif_dispatch_sm_event BTIF_AV_OFFLOAD_START_REQ_EVT) s
    else
      btif_a2dp_command_ack K.A2DP_CTRL_ACK_FAILURE s

/-- `btif_a2dp_ctrl_cb(ch_id, event)`; the channel argument is unused.  `n`
and `read_cmd` are the outcome of the read made on a data-ready event. -/
def btif_a2dp_ctrl_cb (K : Hdr) (env : Env) (event : tUIPC_EVENT) (n : Int)
    (read_cmd : Nat) (s : State) : State :=
  match event with
  | UIPC_OPEN_EVT => s
  | UIPC_CLOSE_EVT =>
    if env.btif_a2dp_source_media_task_is_running then
      call (Effect.UIPC_Open UIPC_CH_ID_AV_CTRL ctrl_cb) s
    else
      s
  | UIPC_RX_DATA_READY_EVT => btif_a2dp_recv_ctrl_data K env n read_cmd s
  | other _ => s

/-- `btif_a2dp_data_cb(ch_id, event)`; the channel argument is unused. -/
def btif_a2dp_data_cb (K : Hdr) (env : Env) (event : tUIPC_EVENT) (s : State) :
    State :=
  match event with
  | UIPC_OPEN_EVT =>
    let s := call (Effect.UIPC_Ioctl UIPC_CH_ID_AV_AUDIO UIPC_REG_REMOVE_ACTIVE_READSET) s
    let s := call (Effect.UIPC_Ioctl UIPC_CH_ID_AV_AUDIO
      (UIPC_SET_READ_POLL_TMO (A2DP_DATA_READ_POLL_MS K))) s
    if env.btif_av_get_peer_sep = K.AVDT_TSEP_SNK then
      let s := call Effect.btif_a2dp_source_start_aa_req s
      call Effect.btif_a2dp_source_encoder_update s
    else
      s
  | UIPC_CLOSE_EVT =>
    let s := btif_a2dp_command_ack K.A2DP_CTRL_ACK_SUCCESS s
    if env.btif_a2dp_source_is_streaming then
      call (Effect.btif_dispatch_sm_event BTIF_AV_STOP_STREAM_REQ_EVT) s
    else
      s
  | _ => s

/-- One invocation of the unit from outside: a control-channel callback (with
the outcome of the read it makes on data-ready), a data-channel callback, or a
call of the exported `btif_a2dp_command_ack`. -/
inductive Event where
  | ctrl (event : tUIPC_EVENT) (n : Int) (read_cmd : Nat)
  | data (event : tUIPC_EVENT)
  | ack (status : Nat)
  deriving DecidableEq, Repr

/-- Handle one event under the collaborator answers current at that time. -/
def step (K : Hdr) (env : Env) (e : Event) (s : State) : State :=
  match e with
  | Event.ctrl event n read_cmd => btif_a2dp_ctrl_cb K env event n read_cmd s
  | Event.data event => btif_a2dp_data_cb K env event s
  | Event.ack status => btif_a2dp_command_ack status s

/-- Handle a sequence of events, each under its own collaborator answers. -/
def run (K : Hdr) : List (Env × Event) → State → State
  | [], s => s
  | (env, e) :: rest, s => run K rest (step K env e s)

/-- A sample header: enumerators numbered in declaration order, a 20 ms media
timer. -/
def hdr0 : Hdr :=
  { A2DP_CTRL_ACK_SUCCESS := 0, A2DP_CTRL_ACK_FAILURE := 1,
    A2DP_CTRL_ACK_INCALL_FAILURE := 2, AVDT_TSEP_SRC := 0, AVDT_TSEP_SNK := 1,
    BTIF_A2DP_SOURCE_MEDIA_TIMER_MS := 20 }

/-- A sample session: stream ready, no call, source idle, peer endpoint a
sink (the local side is the streaming source). -/
def envSrc : Env :=
  { btif_a2dp_source_media_task_is_shutting_down := false,
    btif_a2dp_source_media_task_is_running := true,
    btif_av_stream_ready := true,
    btif_av_stream_started_ready := false,
    btif_hf_is_call_idle := true,
    btif_a2dp_source_is_streaming := false,
    btif_av_get_peer_sep := 1,
    btif_a2dp_sink_get_sample_rate := 44100,
    btif_a2dp_sink_get_channel_count := 2 }

/-- The same session with the peer endpoint a source (the local side is the
sink). -/
def envSnk : Env := { envSrc with btif_av_get_peer_sep := 0 }

/-- A session in which a call is active. -/
def envInCall : Env := { envSrc with btif_hf_is_call_idle := false }

/-- A session in which the source is already streaming. -/
def envStreaming : Env := { envSrc with btif_a2dp_source_is_streaming := true }

/-- A session whose stream is already started (and not merely ready), with no
call and an idle source. -/
def envStarted : Env :=
  { envSrc with btif_av_stream_ready := false, btif_av_stream_started_ready := true }

/-- A session whose media task is shutting down, hence no longer running. -/
def envShuttingDown : Env :=
  { envSrc with btif_a2dp_source_media_task_is_shutting_down := true,
                btif_a2dp_source_media_task_is_running := false }

/-! ## Accounting of accepted commands and ack octets -/

/-- The event is a control-channel data-ready event whose read returned at
least one octet, that is, the dispatcher accepts a command. -/
def Event.accepts : Event → Bool
  | Event.ctrl UIPC_RX_DATA_READY_EVT n _ => decide (n ≠ 0)
  | _ => false

/-- Number of commands accepted along a sequence of events. -/
def acceptedCommands (es : List (Env × Event)) : Nat :=
  es.countP (fun x => x.2.accepts)

/-- The call is a write of exactly one octet to the control channel. -/
def isOneOctetCtrlWrite : Effect → Bool
  | Effect.UIPC_Send UIPC_CH_ID_AV_CTRL [_] => true
  | _ => false

/-- The call is a write of exactly four octets to the control channel. -/
def isFourOctetCtrlWrite : Effect → Bool
  | Effect.UIPC_Send UIPC_CH_ID_AV_CTRL [_, _, _, _] => true
  | _ => false

/-- Number of one-octet control writes in a trace. -/
def oneOctetWrites (t : List Effect) : Nat := t.countP isOneOctetCtrlWrite

/-- Number of four-octet control writes in a trace. -/
def fourOctetWrites (t : List Effect) : Nat := t.countP isFourOctetCtrlWrite

/-- Number of ack octets in a trace.  The unit calls `UIPC_Send` at three
places: the ack emitter (one octet), and the sample-rate write (four octets)
directly followed by the channel-count write (one octet) of GET_AUDIO_CONFIG.
So the ack octets are the one-octet control writes other than the channel
counts, of which there is one per four-octet write. -/
def ackOctets (t : List Effect) : Nat := oneOctetWrites t - fourOctetWrites t

/-- Number of commands held in the pending slot: 0 or 1. -/
def slot (pending : Nat) : Nat := if pending = A2DP_CTRL_CMD_NONE then 0 else 1

/-- A sample history: START accepted in the source role (its ack deferred). -/
def sampleHistory : List (Env × Event) :=
  [(envSrc, Event.ctrl UIPC_RX_DATA_READY_EVT 1 A2DP_CTRL_CMD_START)]

/-! ## Basic facts about the ack emitter and the dispatcher -/

/-- With a command pending, the ack emitter clears the slot and sends the
status, narrowed to one octet, on the control channel. -/
theorem command_ack_of_pending (status : Nat) (s : State)
    (h : s.a2dp_cmd_pending ≠ A2DP_CTRL_CMD_NONE) :
    btif_a2dp_command_ack status s =
      { a2dp_cmd_pending := A2DP_CTRL_CMD_NONE,
        trace := s.trace ++ [Effect.UIPC_Send UIPC_CH_ID_AV_CTRL [status % 256]] } := by
  simp [btif_a2dp_command_ack, call, h]

/-- With nothing pending, the ack emitter does nothing. -/
theorem command_ack_of_none (status : Nat) (s : State)
    (h : s.a2dp_cmd_pending = A2DP_CTRL_CMD_NONE) :
    btif_a2dp_command_ack status s = s := by
  simp [btif_a2dp_command_ack, h]

/-- A non-empty read of an octet that is none of the six `case` labels is
handled by the `default:` label: the octet is stored as pending and a failure
ack is requested. -/
theorem recv_default_label (K : Hdr) (env : Env) (n : Int) (b : Nat) (s : State)
    (hn : n ≠ 0) (h1 : b ≠ 1) (h2 : b ≠ 2) (h3 : b ≠ 3) (h4 : b ≠ 4) (h5 : b ≠ 5)
    (h6 : b ≠ 6) :
    btif_a2dp_recv_ctrl_data K env n b s =
      btif_a2dp_command_ack K.A2DP_CTRL_ACK_FAILURE { s with a2dp_cmd_pending := b } := by
  simp [btif_a2dp_recv_ctrl_data, hn, h1, h2, h3, h4, h5, h6, A2DP_CTRL_CMD_CHECK_READY,
    A2DP_CTRL_CMD_START, A2DP_CTRL_CMD_STOP, A2DP_CTRL_CMD_SUSPEND,
    A2DP_CTRL_GET_AUDIO_CONFIG, A2DP_CTRL_CMD_OFFLOAD_START]

/-- Every unsupported octet other than zero is answered with exactly one
failure ack and leaves the slot empty. -/
theorem recv_unsupported_nonzero (K : Hdr) (env : Env) (n : Int) (b : Nat) (s : State)
    (hn : n ≠ 0) (h0 : b ≠ 0) (h1 : b ≠ 1) (h2 : b ≠ 2) (h3 : b ≠ 3) (h4 : b ≠ 4)
    (h5 : b ≠ 5) (h6 : b ≠ 6) :
    btif_a2dp_recv_ctrl_data K env n b s =
      { a2dp_cmd_pending := A2DP_CTRL_CMD_NONE,
        trace := s.trace ++
          [Effect.UIPC_Send UIPC_CH_ID_AV_CTRL [K.A2DP_CTRL_ACK_FAILURE % 256]] } := by
  rw [recv_default_label K env n b s hn h1 h2 h3 h4 h5 h6]
  exact command_ack_of_pending _ _ (by simpa [A2DP_CTRL_CMD_NONE] using h0)

/-! ## Unsupported opcodes -/

/-- Claim C1, evaluated where it fails.  A one-octet read of the value 0 (the
wire value of `A2DP_CTRL_CMD_NONE`, which has no `case` label) reaches the
`default:` label, but the failure ack requested there is dropped by the sanity
check of the ack emitter: the trace is unchanged, so no ack octet is written,
whatever the session state and the prior pending value. -/
theorem recv_cmd_none_writes_nothing (K : Hdr) (env : Env) (s : State) :
    btif_a2dp_recv_ctrl_data K env 1 0 s =
      { a2dp_cmd_pending := A2DP_CTRL_CMD_NONE, trace := s.trace } := by
  rw [recv_default_label K env 1 0 s (by decide) (by decide) (by decide) (by decide)
    (by decide) (by decide) (by decide)]
  exact command_ack_of_none _ _ rfl

/-! ## START -/

/-- Claim C2 refuted as stated.  With the stream ready, no call, the source
idle and the peer endpoint a sink (local role source), START opens the audio
channel and posts the start event but writes no ack and stays pending. -/
theorem start_source_role_counterexample :
    envSrc.btif_av_stream_ready = true ∧ envSrc.btif_hf_is_call_idle = true ∧
    envSrc.btif_a2dp_source_is_streaming = false ∧
    envSrc.btif_av_get_peer_sep = hdr0.AVDT_TSEP_SNK ∧
    btif_a2dp_recv_ctrl_data hdr0 envSrc 1 A2DP_CTRL_CMD_START State.init =
      { a2dp_cmd_pending := A2DP_CTRL_CMD_START,
        trace := [Effect.UIPC_Open UIPC_CH_ID_AV_AUDIO data_cb,
          Effect.btif_dispatch_sm_event BTIF_AV_START_STREAM_REQ_EVT] } ∧
    btif_a2dp_recv_ctrl_data hdr0 envSrc 1 A2DP_CTRL_CMD_START State.init ≠
      { a2dp_cmd_pending := A2DP_CTRL_CMD_NONE,
        trace := [Effect.UIPC_Open UIPC_CH_ID_AV_AUDIO data_cb,
          Effect.btif_dispatch_sm_event BTIF_AV_START_STREAM_REQ_EVT,
          Effect.UIPC_Send UIPC_CH_ID_AV_CTRL [hdr0.A2DP_CTRL_ACK_SUCCESS % 256]] } := by
  decide

/-- Claim C2 as amended.  START with the stream ready, no call and the source
idle, while the peer endpoint is a sink (local role source): the audio data
channel is opened, exactly one start-stream event is posted, nothing is
written to the control channel, and START is still pending on return. -/
theorem start_source_role_defers_ack (K : Hdr) (env : Env) (n : Int) (s : State)
    (hn : n ≠ 0) (hK : K.AVDT_TSEP_SRC ≠ K.AVDT_TSEP_SNK)
    (hidle : env.btif_hf_is_call_idle = true)
    (hstr : env.btif_a2dp_source_is_streaming = false)
    (hready : env.btif_av_stream_ready = true)
    (hsep : env.btif_av_get_peer_sep = K.AVDT_TSEP_SNK) :
    btif_a2dp_recv_ctrl_data K env n A2DP_CTRL_CMD_START s =
      { a2dp_cmd_pending := A2DP_CTRL_CMD_START,
        trace := s.trace ++ [Effect.UIPC_Open UIPC_CH_ID_AV_AUDIO data_cb,
          Effect.btif_dispatch_sm_event BTIF_AV_START_STREAM_REQ_EVT] } := by
  have hne : ¬ K.AVDT_TSEP_SNK = K.AVDT_TSEP_SRC := fun h => hK h.symm
  simp [btif_a2dp_recv_ctrl_data, hn, hidle, hstr, hready, hsep, hne, call,
    A2DP_CTRL_CMD_CHECK_READY, A2DP_CTRL_CMD_START]

/-- Witness of `start_source_role_defers_ack` on the sample session. -/
theorem start_source_role_defers_ack_witness :
    btif_a2dp_recv_ctrl_data hdr0 envSrc 1 A2DP_CTRL_CMD_START State.init =
      { a2dp_cmd_pending := A2DP_CTRL_CMD_START,
        trace := State.init.trace ++ [Effect.UIPC_Open UIPC_CH_ID_AV_AUDIO data_cb,
          Effect.btif_dispatch_sm_event BTIF_AV_START_STREAM_REQ_EVT] } :=
  start_source_role_defers_ack hdr0 envSrc 1 State.init (by decide) (by decide) rfl rfl
    rfl rfl

/-- Claim C3 refuted as stated.  With the stream ready, no call, the source
idle and the peer endpoint a source (local role sink), START writes its
success ack within the call and is no longer pending on return. -/
theorem start_sink_role_counterexample :
    envSnk.btif_av_stream_ready = true ∧ envSnk.btif_hf_is_call_idle = true ∧
    envSnk.btif_a2dp_source_is_streaming = false ∧
    envSnk.btif_av_get_peer_sep = hdr0.AVDT_TSEP_SRC ∧
    btif_a2dp_recv_ctrl_data hdr0 envSnk 1 A2DP_CTRL_CMD_START State.init =
      { a2dp_cmd_pending := A2DP_CTRL_CMD_NONE,
        trace := [Effect.UIPC_Open UIPC_CH_ID_AV_AUDIO data_cb,
          Effect.btif_dispatch_sm_event BTIF_AV_START_STREAM_REQ_EVT,
          Effect.UIPC_Send UIPC_CH_ID_AV_CTRL [hdr0.A2DP_CTRL_ACK_SUCCESS % 256]] } ∧
    btif_a2dp_recv_ctrl_data hdr0 envSnk 1 A2DP_CTRL_CMD_START State.init ≠
      { a2dp_cmd_pending := A2DP_CTRL_CMD_START,
        trace := [Effect.UIPC_Open UIPC_CH_ID_AV_AUDIO data_cb,
          Effect.btif_dispatch_sm_event BTIF_AV_START_STREAM_REQ_EVT] } := by
  decide

/-- Claim C3 as amended.  START with the stream ready, no call and the source
idle, while the peer endpoint is a source (local role sink): the audio data
channel is opened, exactly one start-stream event is posted, then one success
ack is written within the same call, and the pending slot is empty on
return. -/
theorem start_sink_role_acks_at_once (K : Hdr) (env : Env) (n : Int) (s : State)
    (hn : n ≠ 0)
    (hidle : env.btif_hf_is_call_idle = true)
    (hstr : env.btif_a2dp_source_is_streaming = false)
    (hready : env.btif_av_stream_ready = true)
    (hsep : env.btif_av_get_peer_sep = K.AVDT_TSEP_SRC) :
    btif_a2dp_recv_ctrl_data K env n A2DP_CTRL_CMD_START s =
      { a2dp_cmd_pending := A2DP_CTRL_CMD_NONE,
        trace := s.trace ++ [Effect.UIPC_Open UIPC_CH_ID_AV_AUDIO data_cb,
          Effect.btif_dispatch_sm_event BTIF_AV_START_STREAM_REQ_EVT,
          Effect.UIPC_Send UIPC_CH_ID_AV_CTRL [K.A2DP_CTRL_ACK_SUCCESS % 256]] } := by
  simp [btif_a2dp_recv_ctrl_data, hn, hidle, hstr, hready, hsep, call,
    btif_a2dp_command_ack, A2DP_CTRL_CMD_CHECK_READY, A2DP_CTRL_CMD_START,
    A2DP_CTRL_CMD_NONE]

/-- Witness of `start_sink_role_acks_at_once` on the sample session. -/
theorem start_sink_role_acks_at_once_witness :
    btif_a2dp_recv_ctrl_data hdr0 envSnk 1 A2DP_CTRL_CMD_START State.init =
      { a2dp_cmd_pending := A2DP_CTRL_CMD_NONE,
        trace := State.init.trace ++ [Effect.UIPC_Open UIPC_CH_ID_AV_AUDIO data_cb,
          Effect.btif_dispatch_sm_event BTIF_AV_START_STREAM_REQ_EVT,
          Effect.UIPC_Send UIPC_CH_ID_AV_CTRL [hdr0.A2DP_CTRL_ACK_SUCCESS % 256]] } :=
  start_sink_role_acks_at_once hdr0 envSnk 1 State.init (by decide) rfl rfl rfl rfl

/-! ## STOP -/

/-- Claim C4 refuted as stated.  With the peer endpoint a source (local role
sink) and the source idle, STOP does post a stop-stream event before its
success ack. -/
theorem stop_sink_role_counterexample :
    envSnk.btif_av_get_peer_sep = hdr0.AVDT_TSEP_SRC ∧
    envSnk.btif_a2dp_source_is_streaming = false ∧
    btif_a2dp_recv_ctrl_data hdr0 envSnk 1 A2DP_CTRL_CMD_STOP State.init =
      { a2dp_cmd_pending := A2DP_CTRL_CMD_NONE,
        trace := [Effect.btif_dispatch_sm_event BTIF_AV_STOP_STREAM_REQ_EVT,
          Effect.UIPC_Send UIPC_CH_ID_AV_CTRL [hdr0.A2DP_CTRL_ACK_SUCCESS % 256]] } ∧
    Effect.btif_dispatch_sm_event BTIF_AV_STOP_STREAM_REQ_EVT ∈
      (btif_a2dp_recv_ctrl_data hdr0 envSnk 1 A2DP_CTRL_CMD_STOP State.init).trace := by
  decide

/-- Claim C4 as amended.  STOP while the source is not streaming, for every
value of the peer endpoint: exactly one success ack is written and the slot is
empty on return; no stop-stream event is posted exactly when the peer endpoint
is a sink (local role source), and for every other endpoint value exactly one
stop-stream event is posted before the ack.  In particular, the enumerators
being distinct, a peer endpoint that is a source (local role sink) gets the
stop-stream event. -/
theorem stop_while_idle (K : Hdr) (env : Env) (n : Int) (s : State)
    (hn : n ≠ 0) (hstr : env.btif_a2dp_source_is_streaming = false) :
    btif_a2dp_recv_ctrl_data K env n A2DP_CTRL_CMD_STOP s =
      { a2dp_cmd_pending := A2DP_CTRL_CMD_NONE,
        trace := s.trace ++
          (if env.btif_av_get_peer_sep = K.AVDT_TSEP_SNK then []
           else [Effect.btif_dispatch_sm_event BTIF_AV_STOP_STREAM_REQ_EVT]) ++
          [Effect.UIPC_Send UIPC_CH_ID_AV_CTRL [K.A2DP_CTRL_ACK_SUCCESS % 256]] } ∧
    (K.AVDT_TSEP_SRC ≠ K.AVDT_TSEP_SNK →
      env.btif_av_get_peer_sep = K.AVDT_TSEP_SRC →
      btif_a2dp_recv_ctrl_data K env n A2DP_CTRL_CMD_STOP s =
        { a2dp_cmd_pending := A2DP_CTRL_CMD_NONE,
          trace := s.trace ++
            [Effect.btif_dispatch_sm_event BTIF_AV_STOP_STREAM_REQ_EVT,
             Effect.UIPC_Send UIPC_CH_ID_AV_CTRL [K.A2DP_CTRL_ACK_SUCCESS % 256]] }) := by
  constructor
  · by_cases hsep : env.btif_av_get_peer_sep = K.AVDT_TSEP_SNK <;>
      simp [btif_a2dp_recv_ctrl_data, hn, hstr, hsep, call, btif_a2dp_command_ack,
        A2DP_CTRL_CMD_CHECK_READY, A2DP_CTRL_CMD_START, A2DP_CTRL_CMD_STOP,
        A2DP_CTRL_CMD_NONE]
  · intro hK hsep
    simp [btif_a2dp_recv_ctrl_data, hn, hstr, hsep, hK, call, btif_a2dp_command_ack,
      A2DP_CTRL_CMD_CHECK_READY, A2DP_CTRL_CMD_START, A2DP_CTRL_CMD_STOP,
      A2DP_CTRL_CMD_NONE]

/-- Witness of `stop_while_idle` on the sample session whose peer is a source
(local role sink): the stop-stream event is posted, then the ack. -/
theorem stop_while_idle_witness :
    envSnk.btif_a2dp_source_is_streaming = false ∧
    hdr0.AVDT_TSEP_SRC ≠ hdr0.AVDT_TSEP_SNK ∧
    envSnk.btif_av_get_peer_sep = hdr0.AVDT_TSEP_SRC ∧
    btif_a2dp_recv_ctrl_data hdr0 envSnk 1 A2DP_CTRL_CMD_STOP State.init =
      { a2dp_cmd_pending := A2DP_CTRL_CMD_NONE,
        trace := State.init.trace ++
          [Effect.btif_dispatch_sm_event BTIF_AV_STOP_STREAM_REQ_EVT,
           Effect.UIPC_Send UIPC_CH_ID_AV_CTRL [hdr0.A2DP_CTRL_ACK_SUCCESS % 256]] } :=
  ⟨rfl, by decide, rfl,
    (stop_while_idle hdr0 envSnk 1 State.init (by decide) rfl).2 (by decide) rfl⟩

/-- Claim C5.  STOP while the source is streaming, whatever the peer endpoint:
exactly one stop-stream event is posted, then exactly one success ack is
written to the control channel, and the pending slot is empty on return. -/
theorem stop_while_streaming (K : Hdr) (env : Env) (n : Int) (s : State)
    (hn : n ≠ 0) (hstr : env.btif_a2dp_source_is_streaming = true) :
    btif_a2dp_recv_ctrl_data K env n A2DP_CTRL_CMD_STOP s =
      { a2dp_cmd_pending := A2DP_CTRL_CMD_NONE,
        trace := s.trace ++
          [Effect.btif_dispatch_sm_event BTIF_AV_STOP_STREAM_REQ_EVT,
           Effect.UIPC_Send UIPC_CH_ID_AV_CTRL [K.A2DP_CTRL_ACK_SUCCESS % 256]] } := by
  simp [btif_a2dp_recv_ctrl_data, hn, hstr, call, btif_a2dp_command_ack,
    A2DP_CTRL_CMD_CHECK_READY, A2DP_CTRL_CMD_START, A2DP_CTRL_CMD_STOP,
    A2DP_CTRL_CMD_NONE]

/-- Witness of `stop_while_streaming` on the streaming sample session. -/
theorem stop_while_streaming_witness :
    envStreaming.btif_a2dp_source_is_streaming = true ∧
    btif_a2dp_recv_ctrl_data hdr0 envStreaming 1 A2DP_CTRL_CMD_STOP State.init =
      { a2dp_cmd_pending := A2DP_CTRL_CMD_NONE,
        trace := State.init.trace ++
          [Effect.btif_dispatch_sm_event BTIF_AV_STOP_STREAM_REQ_EVT,
           Effect.UIPC_Send UIPC_CH_ID_AV_CTRL [hdr0.A2DP_CTRL_ACK_SUCCESS % 256]] } :=
  ⟨rfl, stop_while_streaming hdr0 envStreaming 1 State.init (by decide) rfl⟩

/-! ## START, rejected -/

/-- Claim C6.  START while a call is active: exactly one ack is written, the
in-call failure; the audio data channel is not opened and no event is posted,
whatever stream-ready, stream-started, streaming and the peer endpoint are. -/
theorem start_in_call (K : Hdr) (env : Env) (n : Int) (s : State)
    (hn : n ≠ 0) (hcall : env.btif_hf_is_call_idle = false) :
    btif_a2dp_recv_ctrl_data K env n A2DP_CTRL_CMD_START s =
      { a2dp_cmd_pending := A2DP_CTRL_CMD_NONE,
        trace := s.trace ++
          [Effect.UIPC_Send UIPC_CH_ID_AV_CTRL [K.A2DP_CTRL_ACK_INCALL_FAILURE % 256]] } := by
  simp [btif_a2dp_recv_ctrl_data, hn, hcall, call, btif_a2dp_command_ack,
    A2DP_CTRL_CMD_CHECK_READY, A2DP_CTRL_CMD_START, A2DP_CTRL_CMD_NONE]

/-- Witness of `start_in_call` on the in-call sample session. -/
theorem start_in_call_witness :
    envInCall.btif_hf_is_call_idle = false ∧
    btif_a2dp_recv_ctrl_data hdr0 envInCall 1 A2DP_CTRL_CMD_START State.init =
      { a2dp_cmd_pending := A2DP_CTRL_CMD_NONE,
        trace := State.init.trace ++
          [Effect.UIPC_Send UIPC_CH_ID_AV_CTRL [hdr0.A2DP_CTRL_ACK_INCALL_FAILURE % 256]] } :=
  ⟨rfl, start_in_call hdr0 envInCall 1 State.init (by decide) rfl⟩

/-- Claim C7.  START with no call while the source is already streaming:
exactly one ack is written, the failure ack; the audio data channel is not
opened and no start-stream (or other) event is posted, whatever stream-ready,
stream-started and the peer endpoint are. -/
theorem start_while_streaming (K : Hdr) (env : Env) (n : Int) (s : State)
    (hn : n ≠ 0) (hidle : env.btif_hf_is_call_idle = true)
    (hstr : env.btif_a2dp_source_is_streaming = true) :
    btif_a2dp_recv_ctrl_data K env n A2DP_CTRL_CMD_START s =
      { a2dp_cmd_pending := A2DP_CTRL_CMD_NONE,
        trace := s.trace ++
          [Effect.UIPC_Send UIPC_CH_ID_AV_CTRL [K.A2DP_CTRL_ACK_FAILURE % 256]] } := by
  simp [btif_a2dp_recv_ctrl_data, hn, hidle, hstr, call, btif_a2dp_command_ack,
    A2DP_CTRL_CMD_CHECK_READY, A2DP_CTRL_CMD_START, A2DP_CTRL_CMD_NONE]

/-- Witness of `start_while_streaming` on the streaming sample session. -/
theorem start_while_streaming_witness :
    envStreaming.btif_hf_is_call_idle = true ∧
    envStreaming.btif_a2dp_source_is_streaming = true ∧
    btif_a2dp_recv_ctrl_data hdr0 envStreaming 1 A2DP_CTRL_CMD_START State.init =
      { a2dp_cmd_pending := A2DP_CTRL_CMD_NONE,
        trace := State.init.trace ++
          [Effect.UIPC_Send UIPC_CH_ID_AV_CTRL [hdr0.A2DP_CTRL_ACK_FAILURE % 256]] } :=
  ⟨rfl, rfl, start_while_streaming hdr0 envStreaming 1 State.init (by decide) rfl rfl⟩

/-! ## CHECK_READY -/

/-- Claim C8.  CHECK_READY writes exactly one ack octet and posts nothing.
Provided the two ack codes differ on the wire, that octet is the success ack
if and only if the media task is not shutting down and the stream is ready or
started, and it is the failure ack otherwise; in particular it is the failure
ack whenever the media task is shutting down. -/
theorem check_ready_ack (K : Hdr) (env : Env) (n : Int) (s : State)
    (hn : n ≠ 0)
    (hK : K.A2DP_CTRL_ACK_SUCCESS % 256 ≠ K.A2DP_CTRL_ACK_FAILURE % 256) :
    ∃ ack : Nat,
      btif_a2dp_recv_ctrl_data K env n A2DP_CTRL_CMD_CHECK_READY s =
        { a2dp_cmd_pending := A2DP_CTRL_CMD_NONE,
          trace := s.trace ++ [Effect.UIPC_Send UIPC_CH_ID_AV_CTRL [ack]] } ∧
      (ack = K.A2DP_CTRL_ACK_SUCCESS % 256 ↔
        (env.btif_a2dp_source_media_task_is_shutting_down = false ∧
          (env.btif_av_stream_ready = true ∨ env.btif_av_stream_started_ready = true))) ∧
      (ack = K.A2DP_CTRL_ACK_FAILURE % 256 ↔
        ¬ (env.btif_a2dp_source_media_task_is_shutting_down = false ∧
          (env.btif_av_stream_ready = true ∨ env.btif_av_stream_started_ready = true))) ∧
      (env.btif_a2dp_source_media_task_is_shutting_down = true →
        ack = K.A2DP_CTRL_ACK_FAILURE % 256) := by
  have hK2 : ¬ K.A2DP_CTRL_ACK_FAILURE % 256 = K.A2DP_CTRL_ACK_SUCCESS % 256 :=
    fun h => hK h.symm
  cases hsd : env.btif_a2dp_source_media_task_is_shutting_down <;>
  cases hr : env.btif_av_stream_ready <;>
  cases hsr : env.btif_av_stream_started_ready
  case true.false.false | true.false.true | true.true.false | true.true.true
      | false.false.false =>
    refine ⟨K.A2DP_CTRL_ACK_FAILURE % 256, ?_, ?_, ?_, ?_⟩
    · simp [btif_a2dp_recv_ctrl_data, hn, hsd, hr, hsr, call, btif_a2dp_command_ack,
        A2DP_CTRL_CMD_CHECK_READY, A2DP_CTRL_CMD_NONE]
    · simp [hK2]
    · simp
    · simp
  case false.false.true | false.true.false | false.true.true =>
    refine ⟨K.A2DP_CTRL_ACK_SUCCESS % 256, ?_, ?_, ?_, ?_⟩
    · simp [btif_a2dp_recv_ctrl_data, hn, hsd, hr, hsr, call, btif_a2dp_command_ack,
        A2DP_CTRL_CMD_CHECK_READY, A2DP_CTRL_CMD_NONE]
    · simp
    · simp [hK]
    · simp

/-- Witness of `check_ready_ack` on the sample header and session. -/
theorem check_ready_ack_witness :
    ∃ ack : Nat,
      btif_a2dp_recv_ctrl_data hdr0 envSrc 1 A2DP_CTRL_CMD_CHECK_READY State.init =
        { a2dp_cmd_pending := A2DP_CTRL_CMD_NONE,
          trace := State.init.trace ++ [Effect.UIPC_Send UIPC_CH_ID_AV_CTRL [ack]] } ∧
      (ack = hdr0.A2DP_CTRL_ACK_SUCCESS % 256 ↔
        (envSrc.btif_a2dp_source_media_task_is_shutting_down = false ∧
          (envSrc.btif_av_stream_ready = true ∨
            envSrc.btif_av_stream_started_ready = true))) ∧
      (ack = hdr0.A2DP_CTRL_ACK_FAILURE % 256 ↔
        ¬ (envSrc.btif_a2dp_source_media_task_is_shutting_down = false ∧
          (envSrc.btif_av_stream_ready = true ∨
            envSrc.btif_av_stream_started_ready = true))) ∧
      (envSrc.btif_a2dp_source_media_task_is_shutting_down = true →
        ack = hdr0.A2DP_CTRL_ACK_FAILURE % 256) :=
  check_ready_ack hdr0 envSrc 1 State.init (by decide) (by decide)

/-! ## GET_AUDIO_CONFIG -/

/-- Claim C9.  GET_AUDIO_CONFIG, for every 32-bit sample rate and 8-bit
channel count reported by the sink: exactly three writes go to the control
channel, in this order: the one-octet success ack, four octets that are the
little-endian encoding of the sample rate, one octet equal to the channel
count; nothing is posted and the pending slot is empty on return. -/
theorem get_audio_config_writes (K : Hdr) (env : Env) (n : Int) (s : State)
    (hn : n ≠ 0)
    (hrate : env.btif_a2dp_sink_get_sample_rate < 4294967296)
    (hcount : env.btif_a2dp_sink_get_channel_count < 256) :
    ∃ b0 b1 b2 b3 : Nat,
      btif_a2dp_recv_ctrl_data K env n A2DP_CTRL_GET_AUDIO_CONFIG s =
        { a2dp_cmd_pending := A2DP_CTRL_CMD_NONE,
          trace := s.trace ++
            [Effect.UIPC_Send UIPC_CH_ID_AV_CTRL [K.A2DP_CTRL_ACK_SUCCESS % 256],
             Effect.UIPC_Send UIPC_CH_ID_AV_CTRL [b0, b1, b2, b3],
             Effect.UIPC_Send UIPC_CH_ID_AV_CTRL
               [env.btif_a2dp_sink_get_channel_count]] } ∧
      b0 < 256 ∧ b1 < 256 ∧ b2 < 256 ∧ b3 < 256 ∧
      b0 + 256 * b1 + 65536 * b2 + 16777216 * b3 =
        env.btif_a2dp_sink_get_sample_rate := by
  refine ⟨env.btif_a2dp_sink_get_sample_rate % 256,
    env.btif_a2dp_sink_get_sample_rate / 256 % 256,
    env.btif_a2dp_sink_get_sample_rate / 65536 % 256,
    env.btif_a2dp_sink_get_sample_rate / 16777216 % 256, ?_, ?_, ?_, ?_, ?_, ?_⟩
  · simp [btif_a2dp_recv_ctrl_data, hn, call, btif_a2dp_command_ack, uint32_bytes,
      A2DP_CTRL_CMD_CHECK_READY, A2DP_CTRL_CMD_START, A2DP_CTRL_CMD_STOP,
      A2DP_CTRL_CMD_SUSPEND, A2DP_CTRL_GET_AUDIO_CONFIG, A2DP_CTRL_CMD_NONE,
      Nat.mod_eq_of_lt hrate, Nat.mod_eq_of_lt hcount]
  · omega
  · omega
  · omega
  · omega
  · omega

/-- Witness of `get_audio_config_writes`: 44100 Hz, two channels. -/
theorem get_audio_config_writes_witness :
    envSrc.btif_a2dp_sink_get_sample_rate < 4294967296 ∧
    envSrc.btif_a2dp_sink_get_channel_count < 256 ∧
    ∃ b0 b1 b2 b3 : Nat,
      btif_a2dp_recv_ctrl_data hdr0 envSrc 1 A2DP_CTRL_GET_AUDIO_CONFIG State.init =
        { a2dp_cmd_pending := A2DP_CTRL_CMD_NONE,
          trace := State.init.trace ++
            [Effect.UIPC_Send UIPC_CH_ID_AV_CTRL [hdr0.A2DP_CTRL_ACK_SUCCESS % 256],
             Effect.UIPC_Send UIPC_CH_ID_AV_CTRL [b0, b1, b2, b3],
             Effect.UIPC_Send UIPC_CH_ID_AV_CTRL
               [envSrc.btif_a2dp_sink_get_channel_count]] } ∧
      b0 < 256 ∧ b1 < 256 ∧ b2 < 256 ∧ b3 < 256 ∧
      b0 + 256 * b1 + 65536 * b2 + 16777216 * b3 =
        envSrc.btif_a2dp_sink_get_sample_rate :=
  ⟨by decide, by decide,
    get_audio_config_writes hdr0 envSrc 1 State.init (by decide) (by decide) (by decide)⟩

/-! ## The ack emitter -/

/-- Claim C10.  With a command pending, two acknowledge calls in a row write
exactly one octet in total, the first status narrowed to one octet; the second
call changes nothing.  More generally an acknowledge call with the slot empty
writes nothing and changes nothing. -/
theorem command_ack_twice (s : State) (s1 s2 : Nat)
    (h : s.a2dp_cmd_pending ≠ A2DP_CTRL_CMD_NONE) :
    btif_a2dp_command_ack s2 (btif_a2dp_command_ack s1 s) =
      { a2dp_cmd_pending := A2DP_CTRL_CMD_NONE,
        trace := s.trace ++ [Effect.UIPC_Send UIPC_CH_ID_AV_CTRL [s1 % 256]] } ∧
    btif_a2dp_command_ack s2 (btif_a2dp_command_ack s1 s) =
      btif_a2dp_command_ack s1 s ∧
    (btif_a2dp_command_ack s1 s).a2dp_cmd_pending = A2DP_CTRL_CMD_NONE ∧
    ∀ (t : State) (status : Nat), t.a2dp_cmd_pending = A2DP_CTRL_CMD_NONE →
      btif_a2dp_command_ack status t = t := by
  have h1 := command_ack_of_pending s1 s h
  have h2 : btif_a2dp_command_ack s2 (btif_a2dp_command_ack s1 s) =
      btif_a2dp_command_ack s1 s :=
    command_ack_of_none s2 _ (by rw [h1])
  exact ⟨by rw [h2, h1], h2, by rw [h1], fun t status ht => command_ack_of_none status t ht⟩

/-- Witness of `command_ack_twice`: START pending, success then failure. -/
theorem command_ack_twice_witness :
    btif_a2dp_command_ack 1 (btif_a2dp_command_ack 0
        { a2dp_cmd_pending := A2DP_CTRL_CMD_START, trace := [] }) =
      { a2dp_cmd_pending := A2DP_CTRL_CMD_NONE,
        trace := [Effect.UIPC_Send UIPC_CH_ID_AV_CTRL [0]] } :=
  (command_ack_twice { a2dp_cmd_pending := A2DP_CTRL_CMD_START, trace := [] } 0 1
    (by decide)).1

/-! ## Peer detach on the control channel -/

/-- Claim C11.  When the control read returns zero octets the dispatcher only
closes the control channel: no ack or other octet is written, no event is
posted, and the pending slot is exactly what it was, whatever the session
state, the prior pending value and the content of the read buffer. -/
theorem recv_detached (K : Hdr) (env : Env) (b : Nat) (s : State) :
    btif_a2dp_recv_ctrl_data K env 0 b s =
      { a2dp_cmd_pending := s.a2dp_cmd_pending,
        trace := s.trace ++ [Effect.UIPC_Close UIPC_CH_ID_AV_CTRL] } := by
  simp [btif_a2dp_recv_ctrl_data, call]

/-! ## SUSPEND and OFFLOAD_START -/

/-- Claim C12.  SUSPEND, whatever the call state and the peer endpoint: if the
stream is started, exactly one suspend-stream event is posted, no ack is
written and SUSPEND stays pending; otherwise the remote-suspend flag is
cleared, no event is posted, exactly one success ack is written and the slot
is empty on return. -/
theorem suspend_policy (K : Hdr) (env : Env) (n : Int) (s : State) (hn : n ≠ 0) :
    btif_a2dp_recv_ctrl_data K env n A2DP_CTRL_CMD_SUSPEND s =
      if env.btif_av_stream_started_ready = true then
        { a2dp_cmd_pending := A2DP_CTRL_CMD_SUSPEND,
          trace := s.trace ++
            [Effect.btif_dispatch_sm_event BTIF_AV_SUSPEND_STREAM_REQ_EVT] }
      else
        { a2dp_cmd_pending := A2DP_CTRL_CMD_NONE,
          trace := s.trace ++
            [Effect.btif_av_clear_remote_suspend_flag,
             Effect.UIPC_Send UIPC_CH_ID_AV_CTRL [K.A2DP_CTRL_ACK_SUCCESS % 256]] } := by
  cases hst : env.btif_av_stream_started_ready <;>
    simp [btif_a2dp_recv_ctrl_data, hn, hst, call, btif_a2dp_command_ack,
      A2DP_CTRL_CMD_CHECK_READY, A2DP_CTRL_CMD_START, A2DP_CTRL_CMD_STOP,
      A2DP_CTRL_CMD_SUSPEND, A2DP_CTRL_CMD_NONE]

/-- Witness of `suspend_policy`: the started session, during a call. -/
theorem suspend_policy_witness :
    btif_a2dp_recv_ctrl_data hdr0 { envStarted with btif_hf_is_call_idle := false } 1
        A2DP_CTRL_CMD_SUSPEND State.init =
      { a2dp_cmd_pending := A2DP_CTRL_CMD_SUSPEND,
        trace := [Effect.btif_dispatch_sm_event BTIF_AV_SUSPEND_STREAM_REQ_EVT] } :=
  suspend_policy hdr0 { envStarted with btif_hf_is_call_idle := false } 1 State.init
    (by decide)

/-- Claim C13.  OFFLOAD_START posts exactly one offload-start event, writes
nothing to the control channel during the call and is still pending on return;
an acknowledge call made on that state then writes its one ack octet and
empties the slot. -/
theorem offload_start_defers_ack (K : Hdr) (env : Env) (n : Int) (s : State)
    (hn : n ≠ 0) :
    btif_a2dp_recv_ctrl_data K env n A2DP_CTRL_CMD_OFFLOAD_START s =
      { a2dp_cmd_pending := A2DP_CTRL_CMD_OFFLOAD_START,
        trace := s.trace ++
          [Effect.btif_dispatch_sm_event BTIF_AV_OFFLOAD_START_REQ_EVT] } ∧
    ∀ status : Nat,
      btif_a2dp_command_ack status
          (btif_a2dp_recv_ctrl_data K env n A2DP_CTRL_CMD_OFFLOAD_START s) =
        { a2dp_cmd_pending := A2DP_CTRL_CMD_NONE,
          trace := s.trace ++
            [Effect.btif_dispatch_sm_event BTIF_AV_OFFLOAD_START_REQ_EVT,
             Effect.UIPC_Send UIPC_CH_ID_AV_CTRL [status % 256]] } := by
  have h : btif_a2dp_recv_ctrl_data K env n A2DP_CTRL_CMD_OFFLOAD_START s =
      { a2dp_cmd_pending := A2DP_CTRL_CMD_OFFLOAD_START,
        trace := s.trace ++
          [Effect.btif_dispatch_sm_event BTIF_AV_OFFLOAD_START_REQ_EVT] } := by
    simp [btif_a2dp_recv_ctrl_data, hn, call, A2DP_CTRL_CMD_CHECK_READY,
      A2DP_CTRL_CMD_START, A2DP_CTRL_CMD_STOP, A2DP_CTRL_CMD_SUSPEND,
      A2DP_CTRL_GET_AUDIO_CONFIG, A2DP_CTRL_CMD_OFFLOAD_START]
  refine ⟨h, fun status => ?_⟩
  rw [h]
  simp [btif_a2dp_command_ack, call, A2DP_CTRL_CMD_OFFLOAD_START, A2DP_CTRL_CMD_NONE]

/-- Witness of `offload_start_defers_ack` on the sample session. -/
theorem offload_start_defers_ack_witness :
    btif_a2dp_recv_ctrl_data hdr0 envSrc 1 A2DP_CTRL_CMD_OFFLOAD_START State.init =
      { a2dp_cmd_pending := A2DP_CTRL_CMD_OFFLOAD_START,
        trace := [Effect.btif_dispatch_sm_event BTIF_AV_OFFLOAD_START_REQ_EVT] } :=
  (offload_start_defers_ack hdr0 envSrc 1 State.init (by decide)).1

/-! ## The audio data channel -/

/-- Claim C14.  A CLOSED event on the audio data channel first acknowledges
success for the pending command (exactly one success octet if a command was
pending, none if the slot was empty), leaving the slot empty, and then posts
exactly one stop-stream event if the source is streaming and none otherwise. -/
theorem data_close (K : Hdr) (env : Env) (s : State) :
    btif_a2dp_data_cb K env UIPC_CLOSE_EVT s =
      { a2dp_cmd_pending := A2DP_CTRL_CMD_NONE,
        trace := s.trace ++
          (if s.a2dp_cmd_pending = A2DP_CTRL_CMD_NONE then []
           else [Effect.UIPC_Send UIPC_CH_ID_AV_CTRL [K.A2DP_CTRL_ACK_SUCCESS % 256]]) ++
          (if env.btif_a2dp_source_is_streaming = true then
             [Effect.btif_dispatch_sm_event BTIF_AV_STOP_STREAM_REQ_EVT]
           else []) } := by
  obtain ⟨p, t⟩ := s
  by_cases hp : p = A2DP_CTRL_CMD_NONE <;>
  cases hstr : env.btif_a2dp_source_is_streaming <;>
    simp [btif_a2dp_data_cb, btif_a2dp_command_ack, call, hp, hstr]

/-- Claim C19.  An OPENED event on the audio data channel first removes the
channel from the active read set, then sets its read poll timeout to half the
media timer interval (integer division), then starts the encode task followed
by the encoder update exactly when the peer endpoint is a sink (local role
source); it writes nothing to the control channel and leaves the pending slot
as it was, so it never delivers a deferred ack. -/
theorem data_open (K : Hdr) (env : Env) (s : State) :
    btif_a2dp_data_cb K env UIPC_OPEN_EVT s =
      { a2dp_cmd_pending := s.a2dp_cmd_pending,
        trace := s.trace ++
          [Effect.UIPC_Ioctl UIPC_CH_ID_AV_AUDIO UIPC_REG_REMOVE_ACTIVE_READSET,
           Effect.UIPC_Ioctl UIPC_CH_ID_AV_AUDIO
             (UIPC_SET_READ_POLL_TMO (K.BTIF_A2DP_SOURCE_MEDIA_TIMER_MS / 2))] ++
          (if env.btif_av_get_peer_sep = K.AVDT_TSEP_SNK then
             [Effect.btif_a2dp_source_start_aa_req,
              Effect.btif_a2dp_source_encoder_update]
           else []) } := by
  by_cases hsep : env.btif_av_get_peer_sep = K.AVDT_TSEP_SNK <;>
    simp [btif_a2dp_data_cb, call, hsep, A2DP_DATA_READ_POLL_MS]

/-! ## START when the stream is not ready -/

/-- Claim C15.  START with no call, the source idle and the stream not ready
never posts a start-stream event and acks within the call: if the stream is
started it opens the audio data channel and writes exactly one success ack;
otherwise it writes exactly one failure ack and does not open the channel.
The pending slot is empty on return in both cases. -/
theorem start_not_ready (K : Hdr) (env : Env) (n : Int) (s : State)
    (hn : n ≠ 0) (hidle : env.btif_hf_is_call_idle = true)
    (hstr : env.btif_a2dp_source_is_streaming = false)
    (hready : env.btif_av_stream_ready = false) :
    btif_a2dp_recv_ctrl_data K env n A2DP_CTRL_CMD_START s =
      if env.btif_av_stream_started_ready = true then
        { a2dp_cmd_pending := A2DP_CTRL_CMD_NONE,
          trace := s.trace ++
            [Effect.UIPC_Open UIPC_CH_ID_AV_AUDIO data_cb,
             Effect.UIPC_Send UIPC_CH_ID_AV_CTRL [K.A2DP_CTRL_ACK_SUCCESS % 256]] }
      else
        { a2dp_cmd_pending := A2DP_CTRL_CMD_NONE,
          trace := s.trace ++
            [Effect.UIPC_Send UIPC_CH_ID_AV_CTRL [K.A2DP_CTRL_ACK_FAILURE % 256]] } := by
  cases hst : env.btif_av_stream_started_ready <;>
    simp [btif_a2dp_recv_ctrl_data, hn, hidle, hstr, hready, hst, call,
      btif_a2dp_command_ack, A2DP_CTRL_CMD_CHECK_READY, A2DP_CTRL_CMD_START,
      A2DP_CTRL_CMD_NONE]

/-- Witness of `start_not_ready` on the started sample session. -/
theorem start_not_ready_witness :
    envStarted.btif_hf_is_call_idle = true ∧
    envStarted.btif_a2dp_source_is_streaming = false ∧
    envStarted.btif_av_stream_ready = false ∧
    btif_a2dp_recv_ctrl_data hdr0 envStarted 1 A2DP_CTRL_CMD_START State.init =
      { a2dp_cmd_pending := A2DP_CTRL_CMD_NONE,
        trace := [Effect.UIPC_Open UIPC_CH_ID_AV_AUDIO data_cb,
          Effect.UIPC_Send UIPC_CH_ID_AV_CTRL [hdr0.A2DP_CTRL_ACK_SUCCESS % 256]] } :=
  ⟨rfl, rfl, rfl, start_not_ready hdr0 envStarted 1 State.init (by decide) rfl rfl rfl⟩

/-! ## The control channel callback -/

/-- Claim C16.  On a CLOSED event the control callback reopens the control
channel, with itself as callback, exactly when the media task is running, and
otherwise does nothing; in either case nothing is written to the control
channel and the pending slot is unchanged.  The callback asks only whether the
media task is running; provided a media task that is shutting down is not
running, a CLOSED event while the media task is shutting down leaves the
channel closed: the state is unchanged and no reopen call is made. -/
theorem ctrl_close (K : Hdr) (env : Env) (n : Int) (b : Nat) (s : State) :
    btif_a2dp_ctrl_cb K env UIPC_CLOSE_EVT n b s =
      { a2dp_cmd_pending := s.a2dp_cmd_pending,
        trace := s.trace ++
          (if env.btif_a2dp_source_media_task_is_running = true then
             [Effect.UIPC_Open UIPC_CH_ID_AV_CTRL ctrl_cb]
           else []) } ∧
    ((env.btif_a2dp_source_media_task_is_shutting_down = true →
        env.btif_a2dp_source_media_task_is_running = false) →
      env.btif_a2dp_source_media_task_is_shutting_down = true →
      btif_a2dp_ctrl_cb K env UIPC_CLOSE_EVT n b s = s) := by
  constructor
  · cases hrun : env.btif_a2dp_source_media_task_is_running <;>
      simp [btif_a2dp_ctrl_cb, call, hrun]
  · intro hexcl hsd
    simp [btif_a2dp_ctrl_cb, hexcl hsd]

/-- Witness of `ctrl_close`: a CLOSED event while the media task is shutting
down (and so not running) changes nothing. -/
theorem ctrl_close_witness :
    (envShuttingDown.btif_a2dp_source_media_task_is_shutting_down = true →
      envShuttingDown.btif_a2dp_source_media_task_is_running = false) ∧
    envShuttingDown.btif_a2dp_source_media_task_is_shutting_down = true ∧
    btif_a2dp_ctrl_cb hdr0 envShuttingDown UIPC_CLOSE_EVT 0 0 State.init = State.init :=
  ⟨fun _ => rfl, rfl,
    (ctrl_close hdr0 envShuttingDown 0 0 State.init).2 (fun _ => rfl) rfl⟩

/-! ## The default label, characterised -/

/-- Claim C20.  For every octet outside 1..6, a non-empty control read leaves
the pending slot empty and posts nothing; it writes an ack, exactly one and
the failure ack, if and only if the octet is not 0; for the octet 0 nothing is
written to the control channel. -/
theorem recv_default_characterised (K : Hdr) (env : Env) (n : Int) (b : Nat) (s : State)
    (hn : n ≠ 0) (h1 : b ≠ 1) (h2 : b ≠ 2) (h3 : b ≠ 3) (h4 : b ≠ 4) (h5 : b ≠ 5)
    (h6 : b ≠ 6) :
    btif_a2dp_recv_ctrl_data K env n b s =
      { a2dp_cmd_pending := A2DP_CTRL_CMD_NONE,
        trace := s.trace ++
          (if b = 0 then []
           else [Effect.UIPC_Send UIPC_CH_ID_AV_CTRL [K.A2DP_CTRL_ACK_FAILURE % 256]]) } := by
  by_cases h0 : b = 0
  · subst h0
    rw [recv_default_label K env n 0 s hn h1 h2 h3 h4 h5 h6]
    simp [btif_a2dp_command_ack, A2DP_CTRL_CMD_NONE]
  · rw [recv_unsupported_nonzero K env n b s hn h0 h1 h2 h3 h4 h5 h6]
    simp [h0]

/-- Witness of `recv_default_characterised`: the octet 255. -/
theorem recv_default_characterised_witness :
    btif_a2dp_recv_ctrl_data hdr0 envSrc 1 255 State.init =
      { a2dp_cmd_pending := A2DP_CTRL_CMD_NONE,
        trace := [Effect.UIPC_Send UIPC_CH_ID_AV_CTRL [hdr0.A2DP_CTRL_ACK_FAILURE % 256]] } :=
  recv_default_characterised hdr0 envSrc 1 255 State.init (by decide) (by decide)
    (by decide) (by decide) (by decide) (by decide) (by decide)

/-! ## Accounting laws -/

/-- The ack emitter writes no four-octet block, moves the command held in the
slot (if any) into one written octet, and either keeps or empties the slot. -/
theorem command_ack_law (status : Nat) (s : State) :
    fourOctetWrites (btif_a2dp_command_ack status s).trace = fourOctetWrites s.trace ∧
    oneOctetWrites (btif_a2dp_command_ack status s).trace
        + slot (btif_a2dp_command_ack status s).a2dp_cmd_pending =
      oneOctetWrites s.trace + slot s.a2dp_cmd_pending ∧
    ((btif_a2dp_command_ack status s).a2dp_cmd_pending = s.a2dp_cmd_pending ∨
      (btif_a2dp_command_ack status s).a2dp_cmd_pending = A2DP_CTRL_CMD_NONE) := by
  by_cases hp : s.a2dp_cmd_pending = A2DP_CTRL_CMD_NONE
  · simp [btif_a2dp_command_ack, hp]
  · simp [btif_a2dp_command_ack, hp, call, oneOctetWrites, fourOctetWrites, slot,
      isOneOctetCtrlWrite, isFourOctetCtrlWrite, List.countP_cons]

/-- Accepting a command: the old content of the slot is forgotten; the new
command is either left in the slot or answered by one ack octet (unless it is
the octet 0, which is neither); every four-octet block comes with one more
one-octet write. -/
theorem accept_law (K : Hdr) (env : Env) (n : Int) (b : Nat) (s : State) (hn : n ≠ 0) :
    fourOctetWrites s.trace ≤ fourOctetWrites (btif_a2dp_recv_ctrl_data K env n b s).trace ∧
    oneOctetWrites (btif_a2dp_recv_ctrl_data K env n b s).trace
        + slot (btif_a2dp_recv_ctrl_data K env n b s).a2dp_cmd_pending
        + fourOctetWrites s.trace =
      oneOctetWrites s.trace
        + fourOctetWrites (btif_a2dp_recv_ctrl_data K env n b s).trace + slot b ∧
    ((btif_a2dp_recv_ctrl_data K env n b s).a2dp_cmd_pending = b ∨
      (btif_a2dp_recv_ctrl_data K env n b s).a2dp_cmd_pending = A2DP_CTRL_CMD_NONE) := by
  simp only [btif_a2dp_recv_ctrl_data, btif_a2dp_command_ack, call, if_neg hn]
  split_ifs <;>
    simp_all [oneOctetWrites, fourOctetWrites, slot, isOneOctetCtrlWrite,
      isFourOctetCtrlWrite, List.countP_cons, uint32_bytes, A2DP_CTRL_CMD_NONE,
      A2DP_CTRL_CMD_CHECK_READY, A2DP_CTRL_CMD_START, A2DP_CTRL_CMD_STOP,
      A2DP_CTRL_CMD_SUSPEND, A2DP_CTRL_GET_AUDIO_CONFIG, A2DP_CTRL_CMD_OFFLOAD_START] <;>
    omega

/-- An event accepts a command exactly when it is a control data-ready event
with a non-empty read. -/
theorem accepts_iff (e : Event) :
    e.accepts = true ↔ ∃ n b, e = Event.ctrl UIPC_RX_DATA_READY_EVT n b ∧ n ≠ 0 := by
  cases e with
  | ctrl event n b => cases event <;> simp [Event.accepts]
  | data event => simp [Event.accepts]
  | ack status => simp [Event.accepts]

/-- Handling an accepting event is running the dispatcher on the octet read. -/
theorem step_accept (K : Hdr) (env : Env) (n : Int) (b : Nat) (s : State) :
    step K env (Event.ctrl UIPC_RX_DATA_READY_EVT n b) s =
      btif_a2dp_recv_ctrl_data K env n b s := rfl

/-- An event that accepts no command writes no four-octet block, and either
leaves the slot and the one-octet writes as they are or turns the command held
in the slot into one written octet. -/
theorem quiet_step_law (K : Hdr) (env : Env) (e : Event) (s : State)
    (h : e.accepts = false) :
    fourOctetWrites (step K env e s).trace = fourOctetWrites s.trace ∧
    oneOctetWrites (step K env e s).trace + slot (step K env e s).a2dp_cmd_pending =
      oneOctetWrites s.trace + slot s.a2dp_cmd_pending ∧
    ((step K env e s).a2dp_cmd_pending = s.a2dp_cmd_pending ∨
      (step K env e s).a2dp_cmd_pending = A2DP_CTRL_CMD_NONE) := by
  cases e with
  | ack status => exact command_ack_law status s
  | data event =>
    have hack := command_ack_law K.A2DP_CTRL_ACK_SUCCESS s
    cases event with
    | UIPC_OPEN_EVT =>
      simp only [step, btif_a2dp_data_cb, call]
      split_ifs <;>
        simp [oneOctetWrites, fourOctetWrites, isOneOctetCtrlWrite,
          isFourOctetCtrlWrite, List.countP_cons]
    | UIPC_CLOSE_EVT =>
      simp only [step, btif_a2dp_data_cb, call]
      split_ifs <;>
        simp_all [oneOctetWrites, fourOctetWrites, isOneOctetCtrlWrite,
          isFourOctetCtrlWrite, List.countP_cons]
    | UIPC_RX_DATA_READY_EVT => simp [step, btif_a2dp_data_cb]
    | other code => simp [step, btif_a2dp_data_cb]
  | ctrl event n b =>
    cases event with
    | UIPC_RX_DATA_READY_EVT =>
      have hn : n = 0 := by simpa [Event.accepts] using h
      subst hn
      simp [step, btif_a2dp_ctrl_cb, btif_a2dp_recv_ctrl_data, call, oneOctetWrites,
        fourOctetWrites, isOneOctetCtrlWrite, isFourOctetCtrlWrite, List.countP_cons]
    | UIPC_OPEN_EVT => simp [step, btif_a2dp_ctrl_cb]
    | UIPC_CLOSE_EVT =>
      simp only [step, btif_a2dp_ctrl_cb, call]
      split_ifs <;>
        simp [oneOctetWrites, fourOctetWrites, isOneOctetCtrlWrite,
          isFourOctetCtrlWrite, List.countP_cons]
    | other code => simp [step, btif_a2dp_ctrl_cb]

/-- The slot holds at most one command. -/
theorem slot_le_one (p : Nat) : slot p ≤ 1 := by
  unfold slot; split_ifs <;> omega

/-- An empty slot holds no command. -/
theorem slot_none : slot A2DP_CTRL_CMD_NONE = 0 := by simp [slot]

/-- A non-empty slot holds one command. -/
theorem slot_of_ne (p : Nat) (h : p ≠ A2DP_CTRL_CMD_NONE) : slot p = 1 := by simp [slot, h]

/-- Unfolding of a run at its first event. -/
theorem run_cons (K : Hdr) (env : Env) (e : Event) (rest : List (Env × Event)) (s : State) :
    run K ((env, e) :: rest) s = run K rest (step K env e s) := rfl

/-- Accepted commands of a sequence, by its first event. -/
theorem acceptedCommands_cons (env : Env) (e : Event) (rest : List (Env × Event)) :
    acceptedCommands ((env, e) :: rest) =
      acceptedCommands rest + (if e.accepts = true then 1 else 0) := by
  simp [acceptedCommands, List.countP_cons]

/-- Along any run from any state: four-octet writes only grow, ack octets
only grow, and the ack octets written plus the command held in the slot grow
by at most the number of commands accepted. -/
theorem run_law (K : Hdr) (es : List (Env × Event)) :
    ∀ s : State,
      fourOctetWrites s.trace ≤ fourOctetWrites (run K es s).trace ∧
      oneOctetWrites s.trace + fourOctetWrites (run K es s).trace ≤
        oneOctetWrites (run K es s).trace + fourOctetWrites s.trace ∧
      oneOctetWrites (run K es s).trace + slot (run K es s).a2dp_cmd_pending
          + fourOctetWrites s.trace ≤
        oneOctetWrites s.trace + slot s.a2dp_cmd_pending
          + fourOctetWrites (run K es s).trace + acceptedCommands es := by
  induction es with
  | nil => intro s; simp [run, acceptedCommands]
  | cons x rest ih =>
    obtain ⟨env, e⟩ := x
    intro s
    rw [run_cons, acceptedCommands_cons]
    obtain ⟨i1, i2, i3⟩ := ih (step K env e s)
    cases hacc : e.accepts with
    | true =>
      obtain ⟨n, b, rfl, hn⟩ := (accepts_iff e).1 hacc
      rw [step_accept] at i1 i2 i3 ⊢
      obtain ⟨a1, a2, a3⟩ := accept_law K env n b s hn
      have hb := slot_le_one b
      have hs := slot_le_one s.a2dp_cmd_pending
      have hslot : slot (btif_a2dp_recv_ctrl_data K env n b s).a2dp_cmd_pending ≤ slot b := by
        rcases a3 with h | h
        · rw [h]
        · rw [h, slot_none]; omega
      simp only [if_true]
      omega
    | false =>
      obtain ⟨q1, q2, q3⟩ := quiet_step_law K env e s hacc
      have hslot : slot (step K env e s).a2dp_cmd_pending ≤ slot s.a2dp_cmd_pending := by
        rcases q3 with h | h
        · rw [h]
        · rw [h, slot_none]; omega
      simp only [Bool.false_eq_true, if_false]
      omega

/-- Along any run from any state, if the slot is non-empty at the end then
either no command was accepted and slot and writes are as at the start, or the
run splits at a most recently accepted command whose octet is the one in the
slot and since which (its own handling included) no ack octet was written. -/
theorem run_pending (K : Hdr) (es : List (Env × Event)) :
    ∀ s : State, (run K es s).a2dp_cmd_pending ≠ A2DP_CTRL_CMD_NONE →
      (acceptedCommands es = 0 ∧
        (run K es s).a2dp_cmd_pending = s.a2dp_cmd_pending ∧
        oneOctetWrites (run K es s).trace = oneOctetWrites s.trace ∧
        fourOctetWrites (run K es s).trace = fourOctetWrites s.trace) ∨
      (∃ pre env n b post,
        es = pre ++ (env, Event.ctrl UIPC_RX_DATA_READY_EVT n b) :: post ∧ n ≠ 0 ∧
        acceptedCommands post = 0 ∧
        (run K es s).a2dp_cmd_pending = b ∧
        oneOctetWrites (run K es s).trace + fourOctetWrites (run K pre s).trace =
          oneOctetWrites (run K pre s).trace + fourOctetWrites (run K es s).trace) := by
  induction es with
  | nil => intro s _; left; simp [run, acceptedCommands]
  | cons x rest ih =>
    obtain ⟨env, e⟩ := x
    intro s hp
    rw [run_cons] at hp ⊢
    rcases ih (step K env e s) hp with ⟨h0, hpe, ho, hf⟩ | ⟨pre, env', n, b, post, hes, hn, hpost, hb, hcount⟩
    · cases hacc : e.accepts with
      | true =>
        obtain ⟨n, b, rfl, hn⟩ := (accepts_iff e).1 hacc
        rw [step_accept] at hp hpe ho hf ⊢
        obtain ⟨a1, a2, a3⟩ := accept_law K env n b s hn
        have hne : (btif_a2dp_recv_ctrl_data K env n b s).a2dp_cmd_pending ≠
            A2DP_CTRL_CMD_NONE := by rw [← hpe]; exact hp
        have hpb : (btif_a2dp_recv_ctrl_data K env n b s).a2dp_cmd_pending = b := by
          rcases a3 with h | h
          · exact h
          · exact absurd h hne
        right
        refine ⟨[], env, n, b, rest, rfl, hn, h0, by rw [hpe, hpb], ?_⟩
        rw [hpb] at a2
        simp only [run]
        omega
      | false =>
        obtain ⟨q1, q2, q3⟩ := quiet_step_law K env e s hacc
        have hne : (step K env e s).a2dp_cmd_pending ≠ A2DP_CTRL_CMD_NONE := by
          rw [← hpe]; exact hp
        have hps : (step K env e s).a2dp_cmd_pending = s.a2dp_cmd_pending := by
          rcases q3 with h | h
          · exact h
          · exact absurd h hne
        left
        rw [hps] at q2
        refine ⟨by rw [acceptedCommands_cons, h0, hacc]; simp, by rw [hpe, hps], ?_, ?_⟩
        · omega
        · omega
    · right
      refine ⟨(env, e) :: pre, env', n, b, post, by rw [hes]; rfl, hn, hpost, hb, ?_⟩
      rw [run_cons]
      exact hcount

/-! ## The single-outstanding-command discipline -/

/-- Claim C17.  From the initial state, after any finite sequence of events
(control data-ready with any octet or an empty read, control or audio OPENED
and CLOSED, other event codes, external acknowledge calls), each under its own
collaborator answers: the ack octets written never exceed the commands
accepted; and if the pending slot is non-empty then the sequence splits at a
most recently accepted command, whose octet is the one in the slot and since
whose acceptance no ack octet has been written. -/
theorem ack_accounting (K : Hdr) (es : List (Env × Event)) :
    ackOctets (run K es State.init).trace ≤ acceptedCommands es ∧
    ((run K es State.init).a2dp_cmd_pending ≠ A2DP_CTRL_CMD_NONE →
      ∃ pre env n b post,
        es = pre ++ (env, Event.ctrl UIPC_RX_DATA_READY_EVT n b) :: post ∧ n ≠ 0 ∧
        acceptedCommands post = 0 ∧
        (run K es State.init).a2dp_cmd_pending = b ∧
        ackOctets (run K es State.init).trace =
          ackOctets (run K pre State.init).trace) := by
  constructor
  · obtain ⟨_, _, h3⟩ := run_law K es State.init
    have h0 : slot State.init.a2dp_cmd_pending = 0 := slot_none
    have h1 : oneOctetWrites State.init.trace = 0 := rfl
    have h2 : fourOctetWrites State.init.trace = 0 := rfl
    unfold ackOctets
    omega
  · intro hp
    rcases run_pending K es State.init hp with ⟨_, hpe, _, _⟩ | ⟨pre, env, n, b, post, hes, hn, hpost, hb, hcount⟩
    · exact absurd hpe hp
    · refine ⟨pre, env, n, b, post, hes, hn, hpost, hb, ?_⟩
      unfold ackOctets
      omega

/-- Witness of `ack_accounting`: after the sample history START is pending,
and the history splits at that START with no ack written since. -/
theorem ack_accounting_witness :
    ∃ pre env n b post,
      sampleHistory = pre ++ (env, Event.ctrl UIPC_RX_DATA_READY_EVT n b) :: post ∧ n ≠ 0 ∧
      acceptedCommands post = 0 ∧
      (run hdr0 sampleHistory State.init).a2dp_cmd_pending = b ∧
      ackOctets (run hdr0 sampleHistory State.init).trace =
        ackOctets (run hdr0 pre State.init).trace :=
  (ack_accounting hdr0 sampleHistory).2 (by decide)

/-- Claim C18.  A non-empty control read overwrites the pending slot
unconditionally: from two states that differ only in the prior pending value
the dispatcher produces the same trace and the same final pending value, hence
the same behaviour on every later sequence of events; and until the next
command is accepted at most one more ack octet is written, so a command that
was still pending gets no ack of its own. -/
theorem pending_overwritten (K : Hdr) (env : Env) (n : Int) (b : Nat)
    (t : List Effect) (p1 p2 : Nat) (hn : n ≠ 0) :
    btif_a2dp_recv_ctrl_data K env n b { a2dp_cmd_pending := p1, trace := t } =
      btif_a2dp_recv_ctrl_data K env n b { a2dp_cmd_pending := p2, trace := t } ∧
    (∀ later : List (Env × Event),
      run K later (btif_a2dp_recv_ctrl_data K env n b { a2dp_cmd_pending := p1, trace := t }) =
        run K later
          (btif_a2dp_recv_ctrl_data K env n b { a2dp_cmd_pending := p2, trace := t })) ∧
    (∀ later : List (Env × Event), acceptedCommands later = 0 →
      ackOctets (run K later
          (btif_a2dp_recv_ctrl_data K env n b { a2dp_cmd_pending := p1, trace := t })).trace ≤
        ackOctets t + 1) := by
  have h : btif_a2dp_recv_ctrl_data K env n b { a2dp_cmd_pending := p1, trace := t } =
      btif_a2dp_recv_ctrl_data K env n b { a2dp_cmd_pending := p2, trace := t } := by
    simp only [btif_a2dp_recv_ctrl_data, if_neg hn]
  refine ⟨h, fun later => by rw [h], fun later hq => ?_⟩
  obtain ⟨a1, a2, a3⟩ := accept_law K env n b { a2dp_cmd_pending := p1, trace := t } hn
  obtain ⟨r1, r2, r3⟩ := run_law K later
    (btif_a2dp_recv_ctrl_data K env n b { a2dp_cmd_pending := p1, trace := t })
  have hb := slot_le_one b
  rw [hq] at r3
  unfold ackOctets
  simp only at a1 a2
  omega

/-- Witness of `pending_overwritten`: CHECK_READY arriving while OFFLOAD_START
is still pending is handled exactly as with an empty slot. -/
theorem pending_overwritten_witness :
    btif_a2dp_recv_ctrl_data hdr0 envSrc 1 A2DP_CTRL_CMD_CHECK_READY
        { a2dp_cmd_pending := A2DP_CTRL_CMD_OFFLOAD_START, trace := [] } =
      btif_a2dp_recv_ctrl_data hdr0 envSrc 1 A2DP_CTRL_CMD_CHECK_READY
        { a2dp_cmd_pending := A2DP_CTRL_CMD_NONE, trace := [] } :=
  (pending_overwritten hdr0 envSrc 1 A2DP_CTRL_CMD_CHECK_READY []
    A2DP_CTRL_CMD_OFFLOAD_START A2DP_CTRL_CMD_NONE (by decide)).1

end BtifA2dpControl
